import Mathlib

/-!
Verification of the scheduling/orchestration core of the `pipeline_API`
repository (USD-BRL quote ETL pipeline).

The development shallowly embeds the relevant parts of `src/main.py`,
`src/pipeline/extract.py`, `src/pipeline/transform.py` and
`src/pipeline/load.py` as Lean definitions and proves the frozen claims
about them.  Machine conventions:

* Wall-clock datetimes rendered in the configured timezone
  (`America/Sao_Paulo`, a fixed UTC-3 offset since 2019) are modelled as a
  day index (days since an arbitrary Monday, so `day % 7` is Python's
  `datetime.weekday()` with Monday = 0) plus a microsecond-of-day field.
  Python's same-zone datetime comparison and `timedelta` arithmetic then
  reduce to arithmetic on these fields.
* The scheduler loop of `loop_pipeline` is embedded as a trace-producing
  interpreter over a list of per-iteration environment inputs (window
  check result, whether the run raises, when the SIGTERM handler fires),
  with `threading.Event.wait` and `time.sleep` given their real wake-up
  semantics.
* Fallible Python code (dict lookup, `int(...)`, the HTTP fetch) returns
  `Option`.
-/

namespace PipelineAPI

/-! ## Time model: `is_within_allowed_time` and `time_until_next_start`
    (src/main.py lines 42-85) -/

/-- Microseconds in one day (`datetime` resolution is microseconds). -/
def usecPerDay : Nat := 86400000000

/-- A timezone-rendered wall-clock datetime: `day` counts calendar days from
an arbitrary Monday, `tod` is the microsecond of the day.  This is the value
`datetime.datetime.now(ZoneInfo("America/Sao_Paulo"))` hands to the
scheduler's time computations. -/
structure LocalDT where
  day : Nat
  tod : Nat
deriving DecidableEq, Repr

/-- Python's `datetime.weekday()`: Monday = 0 ... Sunday = 6. -/
def LocalDT.weekday (t : LocalDT) : Nat := t.day % 7

/-- 08:00:00.000000 as a microsecond-of-day (`now.replace(hour=8, minute=0,
second=0, microsecond=0)`). -/
def startTod : Nat := 28800000000

/-- 19:00:00.000000 as a microsecond-of-day (`now.replace(hour=19, minute=0,
second=0, microsecond=0)`). -/
def endTod : Nat := 68400000000

/-- `is_within_allowed_time` from src/main.py: weekend days are rejected
first (`now.weekday() >= 5`), then `start <= now <= end` is evaluated, where
`start`/`end` are `now` with the time-of-day replaced by 08:00:00.000000 /
19:00:00.000000 — on the same day and zone this is a time-of-day
comparison. -/
def is_within_allowed_time (t : LocalDT) : Bool :=
  if 5 ≤ t.weekday then false
  else decide (startTod ≤ t.tod) && decide (t.tod ≤ endTod)

/-- The spec's wording of `isWithinWindow`: weekday is Monday-Friday AND
`start-of-day ≤ now ≤ end-of-day`, both boundaries inclusive.  Written from
the spec text, to be compared with `is_within_allowed_time`. -/
def spec_isWithinWindow (t : LocalDT) : Bool :=
  decide (t.weekday ≤ 4) && decide (startTod ≤ t.tod) && decide (t.tod ≤ endTod)

/-- The weekend-skip loop of `time_until_next_start`
(`while next_start.weekday() >= 5: next_start += timedelta(days=1)`), acting
on the day index.  The source loop is unbounded; here it is well-founded on
the distance to the next weekday. -/
def skipWeekend (d : Nat) : Nat :=
  if 5 ≤ d % 7 then skipWeekend (d + 1) else d
termination_by (7 - d % 7) % 7
decreasing_by omega

/-- The same weekend-skip loop with the `weekday()` computation abstracted
as an oracle `wd` and observed through a step budget: `none` means the loop
was still running after `fuel` condition checks.  This embeds the loop
exactly as written — nothing in its body bounds the number of advances; it
stops only when `wd` returns a non-weekend value. -/
def skipWeekendFuel (wd : Nat → Nat) : Nat → Nat → Option Nat
  | 0, _ => none
  | fuel + 1, d => if 5 ≤ wd d then skipWeekendFuel wd fuel (d + 1) else some d

/-- `time_until_next_start` from src/main.py: take today's 08:00; if `now`
has reached it (`now >= next_start`), advance one day; skip weekend days;
return `next_start - now` as a signed duration in microseconds. -/
def time_until_next_start (t : LocalDT) : Int :=
  let base : Nat := if startTod ≤ t.tod then t.day + 1 else t.day
  let nd : Nat := skipWeekend base
  ((nd * usecPerDay + startTod : Nat) : Int) - ((t.day * usecPerDay + t.tod : Nat) : Int)

/-- Total microseconds of a `LocalDT`, for ordering and duration
arithmetic. -/
def LocalDT.toUsec (t : LocalDT) : Int := ((t.day * usecPerDay + t.tod : Nat) : Int)

/-- Add a (non-negative) duration to a wall-clock datetime, renormalizing
into day/time-of-day form. -/
def addDur (t : LocalDT) (d : Int) : LocalDT :=
  ⟨(t.toUsec + d).toNat / usecPerDay, (t.toUsec + d).toNat % usecPerDay⟩

theorem skipWeekend_of_lt (d : Nat) (h : d % 7 < 5) : skipWeekend d = d := by
  rw [skipWeekend]
  simp [Nat.not_le.mpr h]

theorem skipWeekend_of_ge (d : Nat) (h : 5 ≤ d % 7) :
    skipWeekend d = skipWeekend (d + 1) := by
  rw [skipWeekend]
  simp [h]

theorem skipWeekend_closed (d : Nat) :
    skipWeekend d = if d % 7 = 5 then d + 2 else if d % 7 = 6 then d + 1 else d := by
  by_cases h5 : d % 7 = 5
  · rw [skipWeekend_of_ge d (by omega), skipWeekend_of_ge (d + 1) (by omega),
      skipWeekend_of_lt (d + 2) (by omega)]
    simp [h5]
  · by_cases h6 : d % 7 = 6
    · rw [skipWeekend_of_ge d (by omega), skipWeekend_of_lt (d + 1) (by omega)]
      simp [h5, h6]
    · rw [skipWeekend_of_lt d (by omega)]
      simp [h5, h6]

theorem skipWeekend_ge (d : Nat) : d ≤ skipWeekend d := by
  rw [skipWeekend_closed]; split_ifs <;> omega

theorem skipWeekend_le (d : Nat) : skipWeekend d ≤ d + 2 := by
  rw [skipWeekend_closed]; split_ifs <;> omega

theorem skipWeekend_wd (d : Nat) : skipWeekend d % 7 < 5 := by
  rw [skipWeekend_closed]
  split_ifs <;> omega

theorem skipWeekend_gap (d e : Nat) (h1 : d ≤ e) (h2 : e < skipWeekend d) :
    5 ≤ e % 7 := by
  rw [skipWeekend_closed] at h2
  by_cases h5 : d % 7 = 5
  · simp [h5] at h2; omega
  · by_cases h6 : d % 7 = 6
    · simp [h5, h6] at h2; omega
    · simp [h5, h6] at h2; omega

/-! ## Pipeline stages: extract, transform, load
    (src/pipeline/extract.py, transform.py, load.py) -/

/-- The nested `"USDBRL"` object of the AwesomeAPI response, with the four
fields `transform_data` reads.  Values are strings, as delivered by the
API's JSON. -/
structure QuotePair where
  code : String
  codein : String
  bid : String
  timestamp : String
deriving DecidableEq, Repr

/-- The raw document returned by `response.json()`: a JSON object mapping
currency-pair keys to quote objects. -/
abbrev RawDoc := List (String × QuotePair)

/-- Python dict subscript `data[k]`: `none` models the `KeyError` raised on
a missing key. -/
def pyDictGet : RawDoc → String → Option QuotePair
  | [], _ => none
  | (k, v) :: rest, key => if k = key then some v else pyDictGet rest key

/-- Digit-string accumulator for `pyInt`. -/
def decDigits : List Char → Nat → Option Nat
  | [], acc => some acc
  | c :: cs, acc =>
    if c.isDigit then decDigits cs (acc * 10 + (c.toNat - 48)) else none

/-- Python `int(s)` on the plain decimal strings the API delivers (an
optional leading minus sign followed by at least one digit); `none` models
the `ValueError` raised otherwise. -/
def pyInt (s : String) : Option Int :=
  match s.data with
  | [] => none
  | '-' :: [] => none
  | '-' :: rest => (decDigits rest 0).map (fun n => -(n : Int))
  | l => (decDigits l 0).map (fun n => (n : Int))

/-- An absolute instant carried together with the UTC offset it is rendered
in — the model of a timezone-aware `datetime`.  `astimezone` changes only
the offset, never the instant. -/
structure ZonedDateTime where
  epoch : Int
  offsetSec : Int
deriving DecidableEq, Repr

/-- `America/Sao_Paulo`'s fixed UTC offset (-03:00; Brazil abolished DST in
2019, and all instants exercised here are after that). -/
def spTZOffset : Int := -10800

/-- `datetime.fromtimestamp(ts, tz=UTC).astimezone(ZoneInfo("America/Sao_Paulo"))`:
the epoch instant rendered in the configured timezone. -/
def epochToSaoPaulo (ts : Int) : ZonedDateTime := ⟨ts, spTZOffset⟩

/-- The normalized record built by `transform_data` (dict
`data_transformed` in src/pipeline/transform.py).  `valor_de_compra` stays
the string the API delivered — `transform_data` does not convert it. -/
structure Quote where
  moeda_origem : String
  moeda_destino : String
  valor_de_compra : String
  timestamp_moeda : ZonedDateTime
  timestamp_criacao : ZonedDateTime
deriving DecidableEq, Repr

/-- `transform_data` from src/pipeline/transform.py: read the `"USDBRL"`
object (first subscript in source order, so a missing key fails before
anything else), parse its epoch-seconds `timestamp`, and build the
normalized record with both instants rendered in São Paulo time.
`nowEpoch` is the instant `datetime.now(UTC)` would return.  `none` models
an escaping exception. -/
def transform_data (data : RawDoc) (nowEpoch : Int) : Option Quote :=
  match pyDictGet data "USDBRL" with
  | none => none
  | some p =>
    match pyInt p.timestamp with
    | none => none
    | some ts =>
      some { moeda_origem := p.code
             moeda_destino := p.codein
             valor_de_compra := p.bid
             timestamp_moeda := epochToSaoPaulo ts
             timestamp_criacao := epochToSaoPaulo nowEpoch }

/-- `extract_data` from src/pipeline/extract.py, abstracted over the HTTP
response it receives: status 200 returns the parsed JSON body, any other
status logs and returns `None`. -/
def extract_data (status : Nat) (body : RawDoc) : Option RawDoc :=
  if status = 200 then some body else none

/-- The storage-session operations `save_data_postgres` performs, in
order. -/
inductive LoadAct
  | acquire
  | add
  | commit
  | rollback
  | close
deriving DecidableEq, Repr

/-- Where the `try` block of `save_data_postgres` raises, if anywhere:
`atAdd` covers a failure before/at `session.add` (e.g. constructing the
record), `atCommit` a failure inside `session.commit` (constraint
violation, lost connection). -/
inductive LoadFailure
  | atAdd
  | atCommit
deriving DecidableEq, Repr

/-- `save_data_postgres` from src/pipeline/load.py, as the sequence of
session operations it performs: `session = Session()` acquires a fresh
session; the `try` body adds and commits; `except` logs and rolls back;
`finally` closes.  All exceptions are caught — the function always returns
normally (`None`), reporting nothing to its caller. -/
def save_data_postgres : Option LoadFailure → List LoadAct
  | none => [.acquire, .add, .commit, .close]
  | some .atAdd => [.acquire, .rollback, .close]
  | some .atCommit => [.acquire, .add, .rollback, .close]

/-- Whether an action trace is properly session-scoped: exactly one
acquire, occurring first, and exactly one close, occurring last. -/
def scoped_session_ok (acts : List LoadAct) : Bool :=
  (acts.head? == some .acquire) && (acts.getLast? == some .close)
    && (acts.count .close == 1) && (acts.count .acquire == 1)

/-- Whether a rollback occurs strictly before the final action (which, in a
`scoped_session_ok` trace, is the close). -/
def rollback_before_close (acts : List LoadAct) : Bool :=
  acts.dropLast.contains .rollback

/-! ## `pipeline` — one run (src/main.py lines 102-125) -/

/-- What the Python function `pipeline` communicates to its caller: a
normal return (its value is always `None`) or an escaping exception. -/
inductive PyResult
  | ok
  | exc
deriving DecidableEq, Repr

/-- Observable record of one `pipeline(Session, logger)` call. -/
structure RunTrace where
  result : PyResult
  transformCalled : Bool
  loadActs : Option (List LoadAct)
  loggedSuccess : Bool
deriving DecidableEq, Repr

/-- Whether the run handed a record to the Load stage. -/
def loadCalled (r : RunTrace) : Bool := r.loadActs.isSome

/-- Python truthiness test `if not data:` on `extract_data`'s result:
`None` and the empty dict are falsy. -/
def falsy : Option RawDoc → Bool
  | none => true
  | some d => d.isEmpty

/-- `pipeline` from src/main.py: extract; on a falsy document log an error
and return; transform (an escaping exception aborts the run and propagates
to `loop_pipeline`'s catch-all); save to Postgres (which itself swallows
every failure); log "Pipeline de dados concluído com sucesso.".
`extracted` is what `extract_data` returned, `nowEpoch` feeds
`transform_data`, `lf` is the storage failure injected into the Load
stage. -/
def pipeline (extracted : Option RawDoc) (nowEpoch : Int)
    (lf : Option LoadFailure) : RunTrace :=
  if falsy extracted then ⟨.ok, false, none, false⟩
  else
    match extracted with
    | none => ⟨.ok, false, none, false⟩
    | some d =>
      match transform_data d nowEpoch with
      | none => ⟨.exc, true, none, false⟩
      | some _ => ⟨.ok, true, some (save_data_postgres lf), true⟩

/-! ## Scheduler loop (src/main.py lines 141-162) and cancellation -/

/-- `handle_sigterm`: the SIGTERM handler calls `stop_event.set()` on the
process-wide `threading.Event`; there is no code path that clears it. -/
def handle_sigterm (_flag : Bool) : Bool := true

/-- `threading.Event.wait(timeout)` in seconds: returns immediately when
the flag is already set; wakes at the moment the flag is set mid-wait
(`cancelAt = some u`, capped by the timeout); otherwise sleeps the full
timeout.  Returns (seconds actually waited, flag afterwards). -/
def eventWait (timeout : Nat) (flag : Bool) (cancelAt : Option Nat) : Nat × Bool :=
  if flag then (0, true)
  else
    match cancelAt with
    | some u => (min u timeout, true)
    | none => (timeout, false)

/-- `time.sleep(timeout)`: always sleeps the full duration; a SIGTERM
arriving mid-sleep sets the flag but does not wake the sleeper. -/
def pySleep (timeout : Nat) (flag : Bool) (cancelAt : Option Nat) : Nat × Bool :=
  (timeout, flag || cancelAt.isSome)

/-- Environment of one iteration of `loop_pipeline`'s `while` body: the
result of `is_within_allowed_time`, whether `pipeline(...)` raises an
unexpected exception, whether SIGTERM fired between the loop check and the
iteration's wait (e.g. during the run), and the second of the wait at which
SIGTERM fires, if it does. -/
structure IterInput where
  withinWindow : Bool
  raises : Bool
  cancelBeforeWait : Bool
  cancelDuringWait : Option Nat
deriving DecidableEq, Repr

/-- Observable events of the scheduler loop. -/
inductive Ev
  | runStarted
  | waited (seconds : Nat)
  | exited
deriving DecidableEq, Repr

/-- `loop_pipeline` from src/main.py as a trace-producing interpreter:
`while not stop_event.is_set():` — inside the window run the pipeline then
`stop_event.wait(30)` (or `time.sleep(30)` if the run raised); outside the
window `stop_event.wait(600)`.  On loop exit, "Execução encerrada." is
logged (`Ev.exited`).  The input list is the step budget: an empty list
with the flag still clear means the loop is still iterating. -/
def loop_pipeline : Bool → List IterInput → List Ev
  | true, _ => [Ev.exited]
  | false, [] => []
  | false, i :: rest =>
    if i.withinWindow then
      if i.raises then
        Ev.runStarted ::
          Ev.waited (pySleep 30 i.cancelBeforeWait i.cancelDuringWait).1 ::
          loop_pipeline (pySleep 30 i.cancelBeforeWait i.cancelDuringWait).2 rest
      else
        Ev.runStarted ::
          Ev.waited (eventWait 30 i.cancelBeforeWait i.cancelDuringWait).1 ::
          loop_pipeline (eventWait 30 i.cancelBeforeWait i.cancelDuringWait).2 rest
    else
      Ev.waited (eventWait 600 i.cancelBeforeWait i.cancelDuringWait).1 ::
        loop_pipeline (eventWait 600 i.cancelBeforeWait i.cancelDuringWait).2 rest

/-- Scenario D's raw document (spec §8): the API response for USD-BRL. -/
def usdbrlDoc : RawDoc := [("USDBRL", ⟨"USD", "BRL", "5.12", "1700000000"⟩)]

/-! ## Claim theorems -/

theorem is_within_at_start (d : Nat) (hd : d % 7 < 5) :
    is_within_allowed_time ⟨d, startTod⟩ = true := by
  have h : ¬5 ≤ (⟨d, startTod⟩ : LocalDT).weekday := by
    simp only [LocalDT.weekday]; omega
  simp only [is_within_allowed_time, if_neg h]
  simp [startTod, endTod]

theorem time_until_next_start_eq (t : LocalDT) :
    time_until_next_start t
      = ((skipWeekend (if startTod ≤ t.tod then t.day + 1 else t.day) * usecPerDay
            + startTod : Nat) : Int)
        - ((t.day * usecPerDay + t.tod : Nat) : Int) := rfl

/-- Claim C3: `is_within_allowed_time` returns true exactly when the current
instant, rendered in the configured timezone, has weekday Monday-Friday and
a time of day with 08:00:00 ≤ now ≤ 19:00:00, both boundaries inclusive;
every Saturday or Sunday instant yields false regardless of time of day
(the right-hand side's Monday-Friday conjunct). -/
theorem c3_is_within_allowed_time_iff_spec (t : LocalDT) :
    is_within_allowed_time t = spec_isWithinWindow t := by
  rcases Nat.lt_or_ge t.weekday 5 with h | h
  · have h1 : ¬5 ≤ t.weekday := by omega
    have hd : decide (t.weekday ≤ 4) = true := by simp only [decide_eq_true_eq]; omega
    simp only [is_within_allowed_time, spec_isWithinWindow, if_neg h1, hd, Bool.true_and]
  · have hd : decide (t.weekday ≤ 4) = false := by
      simp only [decide_eq_false_iff_not]; omega
    simp only [is_within_allowed_time, spec_isWithinWindow, if_pos h, hd, Bool.false_and]

/-- Claim C4: for every instant (with a well-formed time of day),
`time_until_next_start` is strictly positive, and adding it to the instant
lands exactly on a weekday 08:00:00 start that `is_within_allowed_time`
accepts; moreover no strictly earlier future instant is a weekday 08:00:00
start, so it is the *next* start. -/
theorem c4_time_until_next_start_pos_and_lands_on_start (t : LocalDT)
    (h : t.tod < usecPerDay) :
    0 < time_until_next_start t
    ∧ is_within_allowed_time (addDur t (time_until_next_start t)) = true
    ∧ (addDur t (time_until_next_start t)).tod = startTod
    ∧ (addDur t (time_until_next_start t)).weekday < 5
    ∧ (∀ u : LocalDT, u.tod < usecPerDay → t.toUsec < u.toUsec →
        u.toUsec < t.toUsec + time_until_next_start t →
        ¬(u.weekday < 5 ∧ u.tod = startTod)) := by
  set base := if startTod ≤ t.tod then t.day + 1 else t.day with hbdef
  have hb5 : base = t.day + 1 ∧ startTod ≤ t.tod
      ∨ base = t.day ∧ t.tod < startTod := by
    rw [hbdef]; split
    · rename_i hc; exact Or.inl ⟨rfl, hc⟩
    · rename_i hc; exact Or.inr ⟨rfl, by omega⟩
  have hΔ : time_until_next_start t
      = ((skipWeekend base * usecPerDay + startTod : Nat) : Int)
        - ((t.day * usecPerDay + t.tod : Nat) : Int) := by
    rw [time_until_next_start_eq, ← hbdef]
  have hg1 : base ≤ skipWeekend base := skipWeekend_ge base
  have hg2 : skipWeekend base % 7 < 5 := skipWeekend_wd base
  have hgap := skipWeekend_gap base
  have hsum : t.toUsec + time_until_next_start t
      = ((skipWeekend base * usecPerDay + startTod : Nat) : Int) := by
    rw [hΔ]
    simp only [LocalDT.toUsec]
    ring
  have haddDur : addDur t (time_until_next_start t)
      = ⟨skipWeekend base, startTod⟩ := by
    unfold addDur
    rw [hsum, Int.toNat_natCast]
    have e1 : (skipWeekend base * usecPerDay + startTod) / usecPerDay
        = skipWeekend base := by
      simp only [usecPerDay, startTod]; omega
    have e2 : (skipWeekend base * usecPerDay + startTod) % usecPerDay
        = startTod := by
      simp only [usecPerDay, startTod]; omega
    rw [e1, e2]
  refine ⟨?_, ?_, ?_, ?_, ?_⟩
  · rw [hΔ]
    simp only [usecPerDay, startTod] at hb5 h ⊢
    push_cast
    omega
  · rw [haddDur]
    exact is_within_at_start _ hg2
  · rw [haddDur]
  · rw [haddDur]
    unfold LocalDT.weekday
    exact hg2
  · intro u hu hlt1 hlt2 hcontra
    obtain ⟨hw, htod⟩ := hcontra
    rw [hΔ] at hlt2
    unfold LocalDT.weekday at hw
    unfold LocalDT.toUsec at hlt1 hlt2
    rw [htod] at hlt1 hlt2
    have hud : u.day < skipWeekend base := by
      simp only [usecPerDay, startTod] at hlt2
      push_cast at hlt2
      omega
    have hub : base ≤ u.day := by
      simp only [usecPerDay, startTod] at hlt1 hb5 h hu
      push_cast at hlt1
      omega
    have := hgap u.day hub hud
    omega

/-- Witness for C4 at a concrete instant: Wednesday midnight (day index 2,
time of day 0). -/
theorem c4_witness :
    0 < time_until_next_start ⟨2, 0⟩
    ∧ is_within_allowed_time (addDur ⟨2, 0⟩ (time_until_next_start ⟨2, 0⟩)) = true :=
  ⟨(c4_time_until_next_start_pos_and_lands_on_start ⟨2, 0⟩ (by decide)).1,
   (c4_time_until_next_start_pos_and_lands_on_start ⟨2, 0⟩ (by decide)).2.1⟩

/-- Claim C5, counterexample to "the implementation explicitly bounds this
loop": the weekend-skip loop of `time_until_next_start`, with its
`weekday()` computation replaced by an oracle stuck on Saturday (the
"timezone-calculation error" scenario the spec cites), performs 100 one-day
advances and is still running — nothing in the loop body bounds the number
of advances. -/
theorem c5_counterexample :
    skipWeekendFuel (fun _ => 5) 100 0 = none := by rfl

/-- Claim C5, amended: the weekend-skip loop terminates for every input,
performing at most 2 one-day advances (the third condition check already
exits), and the resulting day is Monday-Friday; this bound follows from
weekday arithmetic (`day % 7` increments and leaves the weekend within two
steps), not from an explicit bound written in the loop. -/
theorem c5_skipWeekend_terminates_within_two_advances (d : Nat) :
    skipWeekendFuel (fun n => n % 7) 3 d = some (skipWeekend d)
    ∧ skipWeekend d ≤ d + 2
    ∧ skipWeekend d % 7 < 5 := by
  refine ⟨?_, skipWeekend_le d, skipWeekend_wd d⟩
  rw [skipWeekend_closed]
  by_cases h5 : d % 7 = 5
  · have h6 : (d + 1) % 7 = 6 := by omega
    have h0 : (d + 2) % 7 = 0 := by omega
    simp [skipWeekendFuel, h5, h6, h0]
  · by_cases h6 : d % 7 = 6
    · have h0 : (d + 1) % 7 = 0 := by omega
      simp [skipWeekendFuel, h5, h6, h0]
    · have hlt : ¬5 ≤ d % 7 := by omega
      simp [skipWeekendFuel, h5, h6, hlt]

/-- Claim C1, counterexample: SIGTERM arrives 3 seconds into the post-run
cooldown of a run that raised an unexpected exception — that cooldown is
`time.sleep(30)`, so the wait lasts its full 30 seconds (`Ev.waited 30`,
not `Ev.waited 3`) instead of returning immediately at the cancellation
instant.  (The loop still exits afterwards without a new run.) -/
theorem c1_counterexample :
    loop_pipeline false [⟨true, true, false, some 3⟩]
      = [Ev.runStarted, Ev.waited 30, Ev.exited] := by
  simp [loop_pipeline, pySleep]

/-- Claim C1, amended: cancellation during the outside-window poll wait or
during the post-run cooldown of a run that returned normally (both
`stop_event.wait` calls) wakes the waiter at the cancellation instant and
the loop reaches its final state without starting another run; the cooldown
after a run that raised an exception is `time.sleep(30)`, which always
sleeps the full 30 seconds before the loop observes the flag and exits
(still without starting another run). -/
theorem c1_cancellation_wakes_event_waits (u v : Nat) (rest : List IterInput)
    (r : Bool) (hu : u ≤ 600) (hv : v ≤ 30) :
    loop_pipeline false (⟨false, r, false, some u⟩ :: rest)
      = [Ev.waited u, Ev.exited]
    ∧ loop_pipeline false (⟨true, false, false, some v⟩ :: rest)
      = [Ev.runStarted, Ev.waited v, Ev.exited]
    ∧ loop_pipeline false (⟨true, true, false, some v⟩ :: rest)
      = [Ev.runStarted, Ev.waited 30, Ev.exited] := by
  refine ⟨?_, ?_, ?_⟩ <;>
    simp [loop_pipeline, eventWait, pySleep, Nat.min_eq_left hu, Nat.min_eq_left hv]

/-- Witness for the amended C1 at concrete inputs: cancellation 7 seconds
into a poll wait wakes after 7 seconds and the loop exits. -/
theorem c1_cancellation_wakes_event_waits_witness :
    loop_pipeline false [⟨false, false, false, some 7⟩, ⟨true, false, false, none⟩]
      = [Ev.waited 7, Ev.exited] :=
  (c1_cancellation_wakes_event_waits 7 7 [⟨true, false, false, none⟩] false
    (by omega) (by omega)).1

/-- Claim C2: the cancellation flag is never cleared — `handle_sigterm`
only sets it (idempotently) and both wait primitives preserve a set flag —
and once the loop's condition check observes it, the loop exits immediately
("Execução encerrada.") with no further pipeline run ever started. -/
theorem c2_cancellation_latched_loop_exits_without_new_run :
    (∀ inps : List IterInput,
      loop_pipeline true inps = [Ev.exited]
      ∧ Ev.runStarted ∉ loop_pipeline true inps)
    ∧ (∀ (t : Nat) (c : Option Nat),
        (eventWait t true c).2 = true ∧ (pySleep t true c).2 = true)
    ∧ (∀ b : Bool,
        handle_sigterm (handle_sigterm b) = handle_sigterm b
        ∧ handle_sigterm b = true) := by
  have key : ∀ inps : List IterInput, loop_pipeline true inps = [Ev.exited] := by
    intro inps
    cases inps <;> rfl
  refine ⟨fun inps => ⟨key inps, ?_⟩, fun t c => ⟨rfl, rfl⟩, fun b => ⟨rfl, rfl⟩⟩
  rw [key inps]
  simp

/-- Claim C6: a run short-circuits at the first failing stage — a falsy
extraction result means the run returns at once with Transform and Load
uninvoked; a Transform failure (escaping exception) means Load is never
invoked, so no record reaches persistence from a run that failed before
Load. -/
theorem c6_pipeline_short_circuits (x : Option RawDoc) (nowEpoch : Int)
    (lf : Option LoadFailure) :
    (falsy x = true →
      (pipeline x nowEpoch lf).transformCalled = false
      ∧ loadCalled (pipeline x nowEpoch lf) = false
      ∧ (pipeline x nowEpoch lf).result = PyResult.ok)
    ∧ (∀ d : RawDoc, x = some d → transform_data d nowEpoch = none →
        loadCalled (pipeline x nowEpoch lf) = false)
    ∧ (falsy x = false → ∀ d : RawDoc, x = some d →
        transform_data d nowEpoch = none →
        (pipeline x nowEpoch lf).result = PyResult.exc) := by
  refine ⟨?_, ?_, ?_⟩
  · intro hf
    simp [pipeline, hf, loadCalled]
  · rintro d rfl ht
    by_cases hfd : falsy (some d) = true
    · simp [pipeline, hfd, loadCalled]
    · rw [Bool.not_eq_true] at hfd
      simp [pipeline, hfd, ht, loadCalled]
  · rintro hf d rfl ht
    simp [pipeline, hf, ht]

/-- Witness for C6: Load is not called when extraction is falsy (`None`)
nor when Transform fails (document lacking the `"USDBRL"` key). -/
theorem c6_pipeline_short_circuits_witness :
    loadCalled (pipeline none 0 none) = false
    ∧ loadCalled (pipeline (some [("FOO", ⟨"USD", "BRL", "5.12", "1700000000"⟩)]) 0 none)
      = false :=
  ⟨((c6_pipeline_short_circuits none 0 none).1 rfl).2.1,
   (c6_pipeline_short_circuits (some [("FOO", ⟨"USD", "BRL", "5.12", "1700000000"⟩)])
      0 none).2.1 [("FOO", ⟨"USD", "BRL", "5.12", "1700000000"⟩)] rfl rfl⟩

/-- Claim C7, counterexample: on Scenario D's document, a run whose
`commit` fails yields exactly the same caller-visible outcome as a run
whose Load succeeded — `pipeline` returns normally and even logs
"Pipeline de dados concluído com sucesso." in both cases — although the
failing run rolled back (persisted nothing) while the other committed.
The outcome returned to the caller does not distinguish them. -/
theorem c7_counterexample :
    (pipeline (some usdbrlDoc) 0 (some LoadFailure.atCommit)).result
      = (pipeline (some usdbrlDoc) 0 none).result
    ∧ (pipeline (some usdbrlDoc) 0 (some LoadFailure.atCommit)).loggedSuccess = true
    ∧ ((pipeline (some usdbrlDoc) 0 (some LoadFailure.atCommit)).loadActs.getD
        []).contains LoadAct.rollback = true
    ∧ ((pipeline (some usdbrlDoc) 0 none).loadActs.getD []).contains LoadAct.commit
      = true := by
  refine ⟨rfl, rfl, rfl, rfl⟩

/-- Claim C7, amended: `save_data_postgres` catches every persistence
failure internally (logging and rolling back) and returns `None` either
way, and `pipeline` then logs completion unconditionally — so the result,
the success log, and whether Load was called are all independent of the
Load outcome; the caller cannot distinguish a persisted record from a
persistence failure. -/
theorem c7_caller_cannot_distinguish_load_outcome (x : Option RawDoc)
    (nowEpoch : Int) (lf lf' : Option LoadFailure) :
    (pipeline x nowEpoch lf).result = (pipeline x nowEpoch lf').result
    ∧ (pipeline x nowEpoch lf).loggedSuccess = (pipeline x nowEpoch lf').loggedSuccess
    ∧ loadCalled (pipeline x nowEpoch lf) = loadCalled (pipeline x nowEpoch lf') := by
  by_cases hf : falsy x = true
  · simp [pipeline, hf]
  · rw [Bool.not_eq_true] at hf
    rcases x with _ | d
    · simp [falsy] at hf
    · cases ht : transform_data d nowEpoch <;>
        simp [pipeline, hf, ht, loadCalled]

/-- Claim C8: on Scenario D's extracted document, `transform_data` yields
`moeda_origem = "USD"`, `moeda_destino = "BRL"`, `valor_de_compra = "5.12"`
and a `timestamp_moeda` that is the absolute instant of epoch second
1700000000 rendered in the configured timezone (America/Sao_Paulo,
UTC-03:00). -/
theorem c8_transform_scenario_d (nowEpoch : Int) :
    transform_data usdbrlDoc nowEpoch
      = some { moeda_origem := "USD"
               moeda_destino := "BRL"
               valor_de_compra := "5.12"
               timestamp_moeda := ⟨1700000000, spTZOffset⟩
               timestamp_criacao := ⟨nowEpoch, spTZOffset⟩ } := rfl

/-- Claim C9: every Load call acquires a fresh session first and closes it
exactly once, as its last action, on success and on every failure path; a
rollback occurs (before the close) exactly when the call failed, and a
commit survives exactly when it succeeded — no partially-applied state
outlives a failed call. -/
theorem c9_load_session_scoped_rollback_on_failure (f : Option LoadFailure) :
    scoped_session_ok (save_data_postgres f) = true
    ∧ rollback_before_close (save_data_postgres f) = f.isSome
    ∧ (save_data_postgres f).contains LoadAct.commit = f.isNone := by
  rcases f with _ | f
  · refine ⟨rfl, rfl, rfl⟩
  · cases f <;> refine ⟨rfl, rfl, rfl⟩

/-- Claim C10: any non-200 HTTP status makes `extract_data` return `None`;
at the pipeline boundary `None` and an empty-but-successful document are
treated identically — the run ends before Transform and Load are invoked
and produces the very same run trace. -/
theorem c10_falsy_extract_equals_fetch_failure (status : Nat) (body : RawDoc)
    (nowEpoch : Int) (lf : Option LoadFailure) (h : status ≠ 200) :
    extract_data status body = none
    ∧ pipeline none nowEpoch lf = pipeline (some []) nowEpoch lf
    ∧ (pipeline (extract_data status body) nowEpoch lf).transformCalled = false
    ∧ loadCalled (pipeline (extract_data status body) nowEpoch lf) = false := by
  have he : extract_data status body = none := by simp [extract_data, h]
  rw [he]
  exact ⟨rfl, rfl, rfl, rfl⟩

/-- Witness for C10 at a concrete failed fetch (HTTP 404). -/
theorem c10_falsy_extract_equals_fetch_failure_witness :
    extract_data 404 usdbrlDoc = none
    ∧ loadCalled (pipeline (extract_data 404 usdbrlDoc) 0 none) = false :=
  ⟨(c10_falsy_extract_equals_fetch_failure 404 usdbrlDoc 0 none (by omega)).1,
   (c10_falsy_extract_equals_fetch_failure 404 usdbrlDoc 0 none (by omega)).2.2.2⟩

end PipelineAPI
